import Mathlib

/-!
Verification of the CareCompanion frontend core: the document-processing
workflow controller (`App.jsx`), the file-selection component
(`FileUpload.jsx`) and the care-plan rendering engine
(`CarePlanDisplay.jsx`).  JavaScript objects with optional fields are
embedded as Lean structures with `Option` fields; a JavaScript `TypeError`
raised by calling a method on `undefined` is embedded as `Except.error ()`;
JSX conditional rendering (`x && ...`) is embedded through explicit
truthiness helpers.
-/

namespace CareCompanion

/-! ## JavaScript semantics helpers -/

/-- Truthiness of an optional string: `undefined` and the empty string are
falsy, any other string is truthy (JS `s && ...` / `s || ...`). -/
def jsTruthyStr : Option String → Option String
  | some "" => none
  | some s => some s
  | none => none

/-- JS `a || b` on an optional string with a string fallback. -/
def jsOrStr (o : Option String) (fallback : String) : String :=
  match jsTruthyStr o with
  | some s => s
  | none => fallback

/-- JSX interpolation of a possibly-undefined string: `undefined` renders as
no output, i.e. the empty string. -/
def jsText : Option String → String
  | some s => s
  | none => ""

/-- JS `arr.map(...)` on a possibly-undefined array accessed without
optional chaining: throws a `TypeError` when the array is `undefined`. -/
def jsMapList : Option (List α) → Except Unit (List α)
  | some l => Except.ok l
  | none => Except.error ()

/-- Truthiness guard used by every section renderer:
`x?.length` is truthy exactly when the optional array is present and
non-empty. -/
def nonEmpty : Option (List α) → Option (List α)
  | some (a :: l) => some (a :: l)
  | _ => none

/-- `Math.round`: round to the nearest integer, ties toward positive
infinity.  For `x = n/d` this is `⌊x + 1/2⌋ = ⌊(2n + d) / (2d)⌋`, written
with `Int.fdiv` so the kernel can evaluate it (Batteries marks the `Rat`
arithmetic operations irreducible). -/
def jsRound (x : Rat) : Int :=
  Int.fdiv (2 * x.num + x.den) (2 * x.den)

/-- Multiplication of a rational by a natural constant, again spelled at
the numerator level so the kernel can evaluate it. -/
def ratMulNat (x : Rat) (k : Nat) : Rat :=
  mkRat (x.num * k) x.den

/-- `Number.prototype.toFixed(d)` for the non-negative values the UI
formats: round `x` to `d` decimal places (nearest, ties up, i.e.
`⌊x * 10^d + 1/2⌋`) and print with exactly `d` digits after the point. -/
def toFixedQ (x : Rat) (d : Nat) : String :=
  let p : Nat := 10 ^ d
  let scaled : Nat := (Int.fdiv (2 * x.num * p + x.den) (2 * x.den)).toNat
  let ip := scaled / p
  let fp := scaled % p
  if d = 0 then toString ip
  else
    let fs := toString fp
    let pad := String.mk (List.replicate (d - fs.length) '0')
    toString ip ++ "." ++ pad ++ fs

/-! ## Data model (§3 of the spec, field names from the JSON payload) -/

/-- One entry of `care_plan.medications`. -/
structure Medication where
  name : Option String
  dosage : Option String
  frequency : Option String
  instructions : Option String
  quantity : Option Int
  refills : Option Int
deriving DecidableEq

/-- One entry of `care_plan.action_items`. -/
structure ActionItem where
  title : Option String
  description : Option String
  priority : Option String
  timeframe : Option String
deriving DecidableEq

/-- One entry of `care_plan.simplified_terms`. -/
structure SimplifiedTerm where
  term : Option String
  explanation : Option String
  importance : Option String
deriving DecidableEq

/-- One entry of `agent_results.resource.result.cost_savings`. -/
structure CostSaving where
  medication : Option String
  monthly_savings : Option Rat
  generic_available : Bool
  generic_name : Option String
  savings_tips : Option (List String)
  discount_programs : Option (List String)
deriving DecidableEq

/-- One entry of `agent_results.resource.result.support_resources`. -/
structure SupportResource where
  name : Option String
  description : Option String
  url : Option String
  phone : Option String
  type : Option String
deriving DecidableEq

/-- `agent_results.resource.result`. -/
structure ResourceResult where
  cost_savings : Option (List CostSaving)
  total_potential_savings : Option Rat
  support_resources : Option (List SupportResource)
deriving DecidableEq

/-- `agent_results.resource`. -/
structure ResourceAgent where
  result : Option ResourceResult
deriving DecidableEq

/-- `agent_results`. -/
structure AgentResults where
  resource : Option ResourceAgent
deriving DecidableEq

/-- `care_plan`: a bag of independently-optional collections. -/
structure CarePlan where
  medications : Option (List Medication)
  action_items : Option (List ActionItem)
  simplified_terms : Option (List SimplifiedTerm)
  lifestyle_tips : Option (List String)
  follow_up_instructions : Option (List String)
  emergency_contacts : Option (List String)
deriving DecidableEq

/-- The decoded response payload (`CarePlanResult` in the spec). -/
structure CarePlanData where
  care_plan : Option CarePlan
  agent_results : Option AgentResults
  confidence_score : Option Rat
  processing_time_seconds : Option Rat
deriving DecidableEq

/-! ## Display formatters (CarePlanDisplay.jsx lines 216-223) -/

/-- `Confidence: {Math.round((data.confidence_score || 0) * 100)}%`. -/
def confidenceDisplay (data : CarePlanData) : String :=
  toString (jsRound (ratMulNat (data.confidence_score.getD 0) 100)) ++ "%"

/-- `Processed in {data.processing_time_seconds?.toFixed(1)}s`: with the
field absent the optional chain contributes no output. -/
def processingTimeDisplay (data : CarePlanData) : String :=
  (match data.processing_time_seconds with
   | some x => toFixedQ x 1
   | none => "") ++ "s"

/-! ## Section renderers (CarePlanDisplay.jsx)

Each `renderX` returns `none` when its guard
(`!data...?.xs?.length → return null`) fires, and otherwise the list of
rendered cards.  Only `renderCostSavings` can throw: inside each
cost-savings card the source calls `saving.savings_tips.map(...)` and
`saving.discount_programs.map(...)` without optional chaining. -/

/-- A rendered medication card: the unconditional fields plus the two
conditional lines `{med.quantity && ...}` and `{med.refills && ...}`
(JS number truthiness: `0` suppresses the line). -/
structure MedicationCard where
  name : Option String
  dosage : Option String
  frequency : Option String
  instructions : Option String
  quantityLine : Option String
  refillsLine : Option String
deriving DecidableEq

/-- Conditional line of a medication card: rendered only when the numeric
field is present and non-zero (JS truthiness). -/
def numLine (label : Option Int) (text : Int → String) : Option String :=
  match label with
  | some q => if q = 0 then none else some (text q)
  | none => none

/-- One medication entry mapped to its card (CarePlanDisplay.jsx 22-35). -/
def medicationCard (med : Medication) : MedicationCard :=
  { name := med.name
    dosage := med.dosage
    frequency := med.frequency
    instructions := med.instructions
    quantityLine := numLine med.quantity
      (fun q => "Quantity: " ++ toString q ++ " tablets")
    refillsLine := numLine med.refills
      (fun r => "Refills: " ++ toString r ++ " remaining") }

/-- `renderMedications` (CarePlanDisplay.jsx 16-38). -/
def renderMedications (data : CarePlanData) : Option (List MedicationCard) :=
  (nonEmpty (data.care_plan.bind (fun c => c.medications))).map
    (fun l => l.map medicationCard)

/-- `renderActionItems` (CarePlanDisplay.jsx 40-62): each card displays the
entry fields directly. -/
def renderActionItems (data : CarePlanData) : Option (List ActionItem) :=
  nonEmpty (data.care_plan.bind (fun c => c.action_items))

/-- `renderSimplifiedTerms` (CarePlanDisplay.jsx 64-81). -/
def renderSimplifiedTerms (data : CarePlanData) : Option (List SimplifiedTerm) :=
  nonEmpty (data.care_plan.bind (fun c => c.simplified_terms))

/-- `renderLifestyleTips` (CarePlanDisplay.jsx 83-96). -/
def renderLifestyleTips (data : CarePlanData) : Option (List String) :=
  nonEmpty (data.care_plan.bind (fun c => c.lifestyle_tips))

/-- `renderFollowUp` (CarePlanDisplay.jsx 98-111). -/
def renderFollowUp (data : CarePlanData) : Option (List String) :=
  nonEmpty (data.care_plan.bind (fun c => c.follow_up_instructions))

/-- `renderEmergencyContacts` (CarePlanDisplay.jsx 113-126). -/
def renderEmergencyContacts (data : CarePlanData) : Option (List String) :=
  nonEmpty (data.care_plan.bind (fun c => c.emergency_contacts))

/-- The optional chain `data.agent_results?.resource?.result`. -/
def resourceResult (data : CarePlanData) : Option ResourceResult :=
  (data.agent_results.bind (fun a => a.resource)).bind (fun r => r.result)

/-- A rendered cost-savings card (CarePlanDisplay.jsx 143-176). -/
structure CostSavingCard where
  medication : Option String
  monthly_savings : Option Rat
  genericLine : Option String
  tips : List String
  programs : List String
deriving DecidableEq

/-- Text of the conditional generic-availability line:
`{saving.generic_available && (<p>...Generic Available: Yes -
{saving.generic_name}</p>)}` — an absent name interpolates as no
output. -/
def genericLineText (saving : CostSaving) : String :=
  "Generic Available: Yes - " ++ jsText saving.generic_name

/-- One cost-savings entry mapped to its card.  `saving.savings_tips.map`
and `saving.discount_programs.map` are plain member calls on possibly
absent fields, so either field being absent throws. -/
def renderSavingCard (saving : CostSaving) : Except Unit CostSavingCard := do
  let tips ← jsMapList saving.savings_tips
  let programs ← jsMapList saving.discount_programs
  pure { medication := saving.medication
         monthly_savings := saving.monthly_savings
         genericLine :=
           if saving.generic_available then some (genericLineText saving)
           else none
         tips := tips
         programs := programs }

/-- The rendered cost-savings section: the summary line
`Potential Annual Savings: ${totalSavings.toFixed(2)}` and the cards. -/
structure CostSavingsSection where
  totalLine : String
  cards : List CostSavingCard
deriving DecidableEq

/-- `renderCostSavings` (CarePlanDisplay.jsx 128-179): guard on
`cost_savings?.length`, `total_potential_savings || 0`, then one card per
entry. -/
def renderCostSavings (data : CarePlanData) :
    Except Unit (Option CostSavingsSection) :=
  match nonEmpty ((resourceResult data).bind (fun r => r.cost_savings)) with
  | none => Except.ok none
  | some costSavings => do
      let totalSavings :=
        ((resourceResult data).bind (fun r => r.total_potential_savings)).getD 0
      let cards ← costSavings.mapM renderSavingCard
      pure (some { totalLine := "$" ++ toFixedQ totalSavings 2, cards := cards })

/-- A rendered support-resource card (CarePlanDisplay.jsx 190-205): the
link and phone parts are conditioned on JS string truthiness. -/
structure ResourceCard where
  name : Option String
  description : Option String
  urlLink : Option String
  phone : Option String
  type : Option String
deriving DecidableEq

/-- `renderSupportResources` (CarePlanDisplay.jsx 181-210). -/
def renderSupportResources (data : CarePlanData) : Option (List ResourceCard) :=
  (nonEmpty ((resourceResult data).bind (fun r => r.support_resources))).map
    (fun l => l.map (fun r =>
      { name := r.name
        description := r.description
        urlLink := jsTruthyStr r.url
        phone := jsTruthyStr r.phone
        type := r.type }))

/-! ## Tabs (CarePlanDisplay.jsx 262-298) -/

/-- The eight optional care-plan sections. -/
inductive PlanSection
  | medications
  | actionItems
  | lifestyleTips
  | followUp
  | emergencyContacts
  | simplifiedTerms
  | costSavings
  | supportResources
deriving DecidableEq

/-- The five fixed tabs. -/
inductive Tab
  | overview
  | medications
  | actions
  | education
  | resources
deriving DecidableEq

/-- A renderer output contributes its section tag when it is non-null. -/
def secOf (s : PlanSection) : Option α → List PlanSection
  | some _ => [s]
  | none => []

/-- The sections a tab actually renders, in JSX order; the resources tab
propagates a throw from `renderCostSavings`. -/
def renderTab (t : Tab) (data : CarePlanData) : Except Unit (List PlanSection) :=
  match t with
  | Tab.overview =>
      Except.ok (secOf PlanSection.medications (renderMedications data) ++
        secOf PlanSection.actionItems (renderActionItems data) ++
        secOf PlanSection.lifestyleTips (renderLifestyleTips data))
  | Tab.medications =>
      Except.ok (secOf PlanSection.medications (renderMedications data))
  | Tab.actions =>
      Except.ok (secOf PlanSection.actionItems (renderActionItems data) ++
        secOf PlanSection.followUp (renderFollowUp data) ++
        secOf PlanSection.emergencyContacts (renderEmergencyContacts data))
  | Tab.education =>
      Except.ok (secOf PlanSection.simplifiedTerms (renderSimplifiedTerms data) ++
        secOf PlanSection.lifestyleTips (renderLifestyleTips data))
  | Tab.resources => do
      let cs ← renderCostSavings data
      Except.ok ((match cs with
        | some _ => [PlanSection.costSavings]
        | none => []) ++
        secOf PlanSection.supportResources (renderSupportResources data))

/-! ## Spec-side tab composition (§4.4 of the spec) -/

/-- The declared composition of each tab, in the declared order. -/
def declaredSections : Tab → List PlanSection
  | Tab.overview =>
      [PlanSection.medications, PlanSection.actionItems, PlanSection.lifestyleTips]
  | Tab.medications => [PlanSection.medications]
  | Tab.actions =>
      [PlanSection.actionItems, PlanSection.followUp, PlanSection.emergencyContacts]
  | Tab.education => [PlanSection.simplifiedTerms, PlanSection.lifestyleTips]
  | Tab.resources => [PlanSection.costSavings, PlanSection.supportResources]

/-- Per the spec, a section is present when its backing collection is
present and non-empty. -/
def sectionPresent (data : CarePlanData) : PlanSection → Bool
  | PlanSection.medications =>
      (nonEmpty (data.care_plan.bind (fun c => c.medications))).isSome
  | PlanSection.actionItems =>
      (nonEmpty (data.care_plan.bind (fun c => c.action_items))).isSome
  | PlanSection.lifestyleTips =>
      (nonEmpty (data.care_plan.bind (fun c => c.lifestyle_tips))).isSome
  | PlanSection.followUp =>
      (nonEmpty (data.care_plan.bind (fun c => c.follow_up_instructions))).isSome
  | PlanSection.emergencyContacts =>
      (nonEmpty (data.care_plan.bind (fun c => c.emergency_contacts))).isSome
  | PlanSection.simplifiedTerms =>
      (nonEmpty (data.care_plan.bind (fun c => c.simplified_terms))).isSome
  | PlanSection.costSavings =>
      (nonEmpty ((resourceResult data).bind (fun r => r.cost_savings))).isSome
  | PlanSection.supportResources =>
      (nonEmpty ((resourceResult data).bind (fun r => r.support_resources))).isSome

/-- Well-formedness of the cost-savings entries: each carries its
savings-tips and discount-programs arrays (the two fields the renderer
dereferences without optional chaining). -/
def costEntriesWellFormed (data : CarePlanData) : Prop :=
  ∀ s ∈ (((resourceResult data).bind (fun r => r.cost_savings)).getD []),
    s.savings_tips.isSome = true ∧ s.discount_programs.isSome = true

/-! ## File selection (FileUpload.jsx) -/

/-- A JS `File` reference: name, byte size, declared media type. -/
structure JsFile where
  name : String
  size : Nat
  type : String
deriving DecidableEq

/-- `handleFileChange` (FileUpload.jsx 7-12): take `files[0]`; when present,
emit `onFileSelect(file)`; no media-type filter. -/
def handleFileChange (files : List JsFile) : Option JsFile :=
  match files.head? with
  | some file => some file
  | none => none

/-- Character-level matching at the start of a string, first argument the
string, second the pattern. -/
def charsStartWith : List Char → List Char → Bool
  | _, [] => true
  | [], _ :: _ => false
  | c :: cs, p :: ps => c = p && charsStartWith cs ps

/-- JS `String.prototype.startsWith`, embedded over the character lists
(the built-in `String.startsWith` is opaque to kernel evaluation). -/
def jsStartsWith (s pattern : String) : Bool :=
  charsStartWith s.data pattern.data

/-- `handleDrop` (FileUpload.jsx 14-20): take `dataTransfer.files[0]`;
emit `onFileSelect(file)` only when present and
`file.type.startsWith('image/')`. -/
def handleDrop (files : List JsFile) : Option JsFile :=
  match files.head? with
  | some file =>
      if jsStartsWith file.type "image/" then some file else none
  | none => none

/-! ## Workflow controller (App.jsx) -/

/-- The five `useState` cells of `App`. -/
structure AppState where
  selectedFile : Option JsFile
  isLoading : Bool
  result : Option CarePlanData
  error : Option String
  uploadProgress : Nat
deriving DecidableEq

/-- The initial state (App.jsx 17-21). -/
def initialState : AppState :=
  { selectedFile := none
    isLoading := false
    result := none
    error := none
    uploadProgress := 0 }

/-- App.jsx 30-32. -/
def selectFileFirstMessage : String := "Please select a file first."

/-- App.jsx 70. -/
def connectionFailedMessage : String :=
  "Unable to connect to the server. Please check your connection."

/-- App.jsx 62. -/
def genericErrorMessage : String := "An error occurred. Please try again."

/-- `handleFileSelect` (App.jsx 23-27): install the file, clear any prior
error and result. -/
def handleFileSelect (s : AppState) (file : JsFile) : AppState :=
  { s with selectedFile := some file, error := none, result := none }

/-- `handleReset` (App.jsx 84-89): clear file, result, error and progress.
`isLoading` is not touched. -/
def handleReset (s : AppState) : AppState :=
  { selectedFile := none
    isLoading := s.isLoading
    result := none
    error := none
    uploadProgress := 0 }

/-- The shape of an axios rejection: `err.response` when the server
answered with an error status (carrying the decoded body under `data`),
`err.request` when the request went out, and the error's own `message`. -/
structure HttpErrorBody where
  message : Option String
  detail : Option String
deriving DecidableEq

/-- The `err.response` object; `data` is the decoded body. -/
structure HttpResponse where
  data : Option HttpErrorBody
deriving DecidableEq

/-- An axios request error. -/
structure RequestError where
  response : Option HttpResponse
  request : Bool
  message : Option String
deriving DecidableEq

/-- Failure classification in the catch block (App.jsx 61-77):
`err.response` first (`errorData?.message || errorData?.detail ||
errorMessage`), then `err.request` (connectivity text), then
`err.message || errorMessage`. -/
def classifyError (err : RequestError) : String :=
  match err.response with
  | some resp =>
      jsOrStr (resp.data.bind (fun b => b.message))
        (jsOrStr (resp.data.bind (fun b => b.detail)) genericErrorMessage)
  | none =>
      if err.request then connectionFailedMessage
      else jsOrStr err.message genericErrorMessage

/-- The synchronous prefix of `handleSubmit` (App.jsx 29-39): with no file
selected, set the error text and return without issuing a request; with a
file, clear result and error, enter the loading state and zero the
progress value.  The boolean records whether the request is issued. -/
def handleSubmitSync (s : AppState) : AppState × Bool :=
  match s.selectedFile with
  | none => ({ s with error := some selectFileFirstMessage }, false)
  | some _ =>
      ({ s with result := none, error := none,
                isLoading := true, uploadProgress := 0 }, true)

/-- Settlement of the outstanding request. -/
inductive RequestOutcome
  | success (data : CarePlanData)
  | failure (err : RequestError)

/-- A whole run of `handleSubmit` (App.jsx 29-82) with a given request
outcome, tracking the progress-ticker lifecycle.  `setInterval` runs
inside the `try` block; `clearInterval` is reached only on the success
path — when `await axios.post` throws, control jumps to `catch`/`finally`,
neither of which can reference (let alone clear) the interval. -/
structure SubmitRun where
  final : AppState
  tickerStarted : Bool
  tickerCleared : Bool
deriving DecidableEq

/-- `handleSubmit` from invocation to settlement. -/
def handleSubmitRun (s : AppState) (out : RequestOutcome) : SubmitRun :=
  match s.selectedFile with
  | none =>
      { final := { s with error := some selectFileFirstMessage }
        tickerStarted := false
        tickerCleared := false }
  | some _ =>
      let s1 : AppState :=
        { s with result := none, error := none,
                 isLoading := true, uploadProgress := 0 }
      match out with
      | RequestOutcome.success d =>
          { final := { s1 with result := some d,
                               isLoading := false, uploadProgress := 0 }
            tickerStarted := true
            tickerCleared := true }
      | RequestOutcome.failure e =>
          { final := { s1 with error := some (classifyError e),
                               isLoading := false, uploadProgress := 0 }
            tickerStarted := true
            tickerCleared := false }

/-! ## The exposed affordances and the reachable state space

The user-facing events of the rendered page (App.jsx 91-159), each with
the guard under which its triggering element is interactive:

* file-selection gestures — the `FileUpload` drop zone and its hidden
  input are always rendered and are never disabled;
* the Analyze button — `disabled={!selectedFile || isLoading}`;
* the Try Again button — rendered only while `error` is displayed;
* a reset — the ✕ button (shown with a selected file), Start Over (shown
  with an error) or Process Another Document (shown with a result);
* settlement of the outstanding request — possible only while a request
  is in flight, i.e. while `isLoading` holds. -/
inductive UiEvent
  | selectFile (file : JsFile)
  | clickAnalyze
  | clickRetry
  | respondSuccess (data : CarePlanData)
  | respondFailure (err : RequestError)
  | clickReset

/-- Whether an event's affordance is live in a state. -/
def enabledIn (s : AppState) : UiEvent → Bool
  | UiEvent.selectFile _ => true
  | UiEvent.clickAnalyze => s.selectedFile.isSome && !s.isLoading
  | UiEvent.clickRetry => s.error.isSome
  | UiEvent.respondSuccess _ => s.isLoading
  | UiEvent.respondFailure _ => s.isLoading
  | UiEvent.clickReset =>
      s.selectedFile.isSome || s.error.isSome || s.result.isSome

/-- The state reached by an event.  Request settlement runs the `try`
continuation / `catch` block followed by `finally`
(`setIsLoading(false); setUploadProgress(0)`). -/
def stepUi (s : AppState) : UiEvent → AppState
  | UiEvent.selectFile file => handleFileSelect s file
  | UiEvent.clickAnalyze => (handleSubmitSync s).1
  | UiEvent.clickRetry => (handleSubmitSync s).1
  | UiEvent.respondSuccess d =>
      { s with result := some d, isLoading := false, uploadProgress := 0 }
  | UiEvent.respondFailure e =>
      { s with error := some (classifyError e),
               isLoading := false, uploadProgress := 0 }
  | UiEvent.clickReset => handleReset s

/-- States reachable from the initial render through live affordances. -/
inductive Reachable : AppState → Prop
  | init : Reachable initialState
  | next {s : AppState} {e : UiEvent} :
      Reachable s → enabledIn s e = true → Reachable (stepUi s e)

/-- The inductive invariant of the controller: a result and an error are
never displayed together, and while a request is in flight both are
clear. -/
def controllerInv (s : AppState) : Bool :=
  !(s.result.isSome && s.error.isSome) &&
  (!s.isLoading || s.error.isNone) &&
  (!s.isLoading || s.result.isNone)

/-! ## Spec-side definitions -/

/-- The failure classification exactly as the claim words it, ordered and
first-match-wins: (1) server responded with a message or detail field →
that text verbatim; (2) request sent but no response received →
connectivity text; (3) otherwise the failure's own message when present,
else the generic fallback. -/
def claimedClassify (err : RequestError) : String :=
  match jsTruthyStr ((err.response.bind (fun r => r.data)).bind
      (fun b => b.message)) with
  | some m => m
  | none =>
      match jsTruthyStr ((err.response.bind (fun r => r.data)).bind
          (fun b => b.detail)) with
      | some d => d
      | none =>
          if err.request && err.response.isNone then connectionFailedMessage
          else jsOrStr err.message genericErrorMessage

/-- The amended classification: when the server responded, only the body's
message and detail fields are consulted, and with neither usable the
generic fallback is used — the failure's own message is consulted only
when no request went out at all. -/
def amendedClassify (err : RequestError) : String :=
  match jsTruthyStr ((err.response.bind (fun r => r.data)).bind
      (fun b => b.message)) with
  | some m => m
  | none =>
      match jsTruthyStr ((err.response.bind (fun r => r.data)).bind
          (fun b => b.detail)) with
      | some d => d
      | none =>
          if err.response.isSome then genericErrorMessage
          else if err.request then connectionFailedMessage
          else jsOrStr err.message genericErrorMessage

/-! ## Concrete inputs used by witnesses and counterexamples -/

/-- A selected document. -/
def sampleFile : JsFile :=
  { name := "prescription.jpg", size := 204800, type := "image/jpeg" }

/-- A second, different document. -/
def sampleFile2 : JsFile :=
  { name := "labs.png", size := 1024, type := "image/png" }

/-- A plain-text file, rejected by the drop filter. -/
def textFile : JsFile :=
  { name := "notes.txt", size := 64, type := "text/plain" }

/-- The state after selecting `sampleFile` from the initial render. -/
def selectedState : AppState := handleFileSelect initialState sampleFile

/-- The state after selecting a file and clicking Analyze: Submitting. -/
def submittingState : AppState :=
  stepUi (stepUi initialState (UiEvent.selectFile sampleFile))
    UiEvent.clickAnalyze

/-- A network failure: the request went out, nothing came back. -/
def netFailure : RequestError :=
  { response := none, request := true, message := none }

/-- A rejection whose body is `{ "detail": "File too large" }`. -/
def fileTooLargeError : RequestError :=
  { response := some { data := some { message := none, detail := some "File too large" } }
    request := true
    message := some "Request failed with status code 400" }

/-- A rejection with a response whose body carries neither a message nor a
detail field, while the error object itself has a message. -/
def statusOnlyError : RequestError :=
  { response := some { data := some { message := none, detail := none } }
    request := true
    message := some "Request failed with status code 500" }

/-- A payload with every optional field absent. -/
def emptyData : CarePlanData :=
  { care_plan := none
    agent_results := none
    confidence_score := none
    processing_time_seconds := none }

/-- A fully-populated cost-savings entry. -/
def wellFormedSaving : CostSaving :=
  { medication := some "Lipitor"
    monthly_savings := some (mkRat 45 1)
    generic_available := true
    generic_name := some "Atorvastatin"
    savings_tips := some ["Use a pharmacy discount card"]
    discount_programs := some ["GoodRx"] }

/-- A cost-savings entry missing its savings-tips and discount-programs
arrays. -/
def malformedSaving : CostSaving :=
  { medication := some "Lipitor"
    monthly_savings := some (mkRat 45 1)
    generic_available := false
    generic_name := none
    savings_tips := none
    discount_programs := none }

/-- An entry whose generic-availability flag is set with no generic name. -/
def flagOnlySaving : CostSaving :=
  { medication := some "Eliquis"
    monthly_savings := none
    generic_available := true
    generic_name := none
    savings_tips := some []
    discount_programs := some [] }

/-- A payload carrying one well-formed cost-savings entry and the numeric
fields of the formatting scenario (0.947, 3.2, 123.4). -/
def formatSampleData : CarePlanData :=
  { care_plan := none
    agent_results := some { resource := some { result := some {
        cost_savings := some [wellFormedSaving]
        total_potential_savings := some (mkRat 617 5)
        support_resources := none } } }
    confidence_score := some (mkRat 947 1000)
    processing_time_seconds := some (mkRat 16 5) }

/-- A payload whose only cost-savings entry is `malformedSaving`. -/
def malformedData : CarePlanData :=
  { care_plan := none
    agent_results := some { resource := some { result := some {
        cost_savings := some [malformedSaving]
        total_potential_savings := none
        support_resources := none } } }
    confidence_score := none
    processing_time_seconds := none }

/-- A drop gesture on the upload area in state `s`: the filter runs, and an
accepted file is handed to `App.handleFileSelect`. -/
def dropGesture (s : AppState) (files : List JsFile) : AppState :=
  match handleDrop files with
  | some f => handleFileSelect s f
  | none => s

/-- A click-to-browse selection in state `s`. -/
def browseGesture (s : AppState) (files : List JsFile) : AppState :=
  match handleFileChange files with
  | some f => handleFileSelect s f
  | none => s

/-! ## Helper lemmas -/

theorem controllerInv_step {s : AppState} (e : UiEvent)
    (hg : enabledIn s e = true)
    (ih : controllerInv s = true) : controllerInv (stepUi s e) = true := by
  obtain ⟨f, l, r, er, p⟩ := s
  cases e with
  | selectFile f0 => simp [stepUi, handleFileSelect, controllerInv]
  | clickAnalyze =>
      cases f <;> cases l <;> cases r <;> cases er <;>
        simp_all [stepUi, handleSubmitSync, controllerInv, enabledIn]
  | clickRetry =>
      cases f <;> cases l <;> cases r <;> cases er <;>
        simp_all [stepUi, handleSubmitSync, controllerInv, enabledIn]
  | respondSuccess d =>
      cases l <;> cases r <;> cases er <;>
        simp_all [stepUi, controllerInv, enabledIn]
  | respondFailure e =>
      cases l <;> cases r <;> cases er <;>
        simp_all [stepUi, controllerInv, enabledIn]
  | clickReset => simp [stepUi, handleReset, controllerInv]

theorem controllerInv_of_reachable {s : AppState} (h : Reachable s) :
    controllerInv s = true := by
  induction h with
  | init => rfl
  | next _ hg ih => exact controllerInv_step _ hg ih

theorem nonEmpty_eq_some {α : Type} {o : Option (List α)} {l : List α}
    (h : nonEmpty o = some l) : o = some l := by
  cases o with
  | none => simp [nonEmpty] at h
  | some m =>
      cases m with
      | nil => simp [nonEmpty] at h
      | cons a t => simpa [nonEmpty] using h

theorem secOf_eq {α : Type} (sec : PlanSection) (o : Option α) :
    secOf sec o = if o.isSome then [sec] else [] := by
  cases o <;> rfl

theorem renderSavingCard_ok {s : CostSaving} {tips programs : List String}
    (ht : s.savings_tips = some tips)
    (hp : s.discount_programs = some programs) :
    renderSavingCard s = Except.ok
      { medication := s.medication
        monthly_savings := s.monthly_savings
        genericLine :=
          if s.generic_available then some (genericLineText s) else none
        tips := tips
        programs := programs } := by
  simp [renderSavingCard, jsMapList, ht, hp]
  rfl

theorem renderSavingCard_err_tips {s : CostSaving}
    (ht : s.savings_tips = none) :
    renderSavingCard s = Except.error () := by
  unfold renderSavingCard
  rw [ht]
  rfl

theorem renderSavingCard_err_programs {s : CostSaving} {tips : List String}
    (ht : s.savings_tips = some tips) (hp : s.discount_programs = none) :
    renderSavingCard s = Except.error () := by
  unfold renderSavingCard
  rw [ht, hp]
  rfl

theorem mapM_renderSavingCard_ok (l : List CostSaving)
    (h : ∀ s ∈ l, s.savings_tips.isSome = true ∧
      s.discount_programs.isSome = true) :
    ∃ cards, l.mapM renderSavingCard = Except.ok cards := by
  induction l with
  | nil => exact ⟨[], rfl⟩
  | cons a t ih =>
      obtain ⟨tips, htips⟩ :=
        Option.isSome_iff_exists.mp (h a (by simp)).1
      obtain ⟨programs, hprogs⟩ :=
        Option.isSome_iff_exists.mp (h a (by simp)).2
      obtain ⟨cards, hcards⟩ := ih (fun s hs => h s (by simp [hs]))
      refine ⟨{ medication := a.medication
                monthly_savings := a.monthly_savings
                genericLine :=
                  if a.generic_available then some (genericLineText a) else none
                tips := tips
                programs := programs } :: cards, ?_⟩
      rw [List.mapM_cons, renderSavingCard_ok htips hprogs, hcards]
      rfl

theorem renderCostSavings_ok_of_wf {d : CarePlanData}
    (h : costEntriesWellFormed d) :
    ∃ o, renderCostSavings d = Except.ok o ∧
      o.isSome = sectionPresent d PlanSection.costSavings := by
  cases hc : nonEmpty ((resourceResult d).bind (fun r => r.cost_savings)) with
  | none =>
      exact ⟨none, by simp [renderCostSavings, hc], by simp [sectionPresent, hc]⟩
  | some l =>
      have hl : (resourceResult d).bind (fun r => r.cost_savings) = some l :=
        nonEmpty_eq_some hc
      have hwf : ∀ s ∈ l, s.savings_tips.isSome = true ∧
          s.discount_programs.isSome = true := by
        intro s hs
        exact h s (by simp [hl, hs])
      obtain ⟨cards, hcards⟩ := mapM_renderSavingCard_ok l hwf
      refine ⟨some
        { totalLine := "$" ++ toFixedQ
            (((resourceResult d).bind (fun r => r.total_potential_savings)).getD 0) 2
          cards := cards }, ?_, by simp [sectionPresent, hc]⟩
      simp only [renderCostSavings, hc]
      rw [hcards]
      rfl

theorem renderMedications_isSome (d : CarePlanData) :
    (renderMedications d).isSome = sectionPresent d PlanSection.medications := by
  cases h : nonEmpty (d.care_plan.bind (fun c => c.medications)) <;>
    simp [renderMedications, sectionPresent, h]

theorem renderActionItems_isSome (d : CarePlanData) :
    (renderActionItems d).isSome = sectionPresent d PlanSection.actionItems := rfl

theorem renderLifestyleTips_isSome (d : CarePlanData) :
    (renderLifestyleTips d).isSome = sectionPresent d PlanSection.lifestyleTips := rfl

theorem renderFollowUp_isSome (d : CarePlanData) :
    (renderFollowUp d).isSome = sectionPresent d PlanSection.followUp := rfl

theorem renderEmergencyContacts_isSome (d : CarePlanData) :
    (renderEmergencyContacts d).isSome =
      sectionPresent d PlanSection.emergencyContacts := rfl

theorem renderSimplifiedTerms_isSome (d : CarePlanData) :
    (renderSimplifiedTerms d).isSome =
      sectionPresent d PlanSection.simplifiedTerms := rfl

theorem renderSupportResources_isSome (d : CarePlanData) :
    (renderSupportResources d).isSome =
      sectionPresent d PlanSection.supportResources := by
  cases h : nonEmpty ((resourceResult d).bind (fun r => r.support_resources)) <;>
    simp [renderSupportResources, sectionPresent, h]

/-- The Submitting state used in the C1 theorems is reachable: select a
file, then click Analyze. -/
theorem reachable_submittingState : Reachable submittingState :=
  Reachable.next (Reachable.next Reachable.init (by rfl)) (by rfl)

/-! ## Claim theorems -/

/-- C1 (counterexample): the file-selection gestures are NOT inert during
Submitting.  The Submitting state reached by selecting a file and clicking
Analyze is reachable, its selection affordance is live, and dropping a
second image there fires the selection-changed transition, replacing the
selected document. -/
theorem c1_selection_live_while_submitting :
    Reachable submittingState ∧
    submittingState.isLoading = true ∧
    enabledIn submittingState (UiEvent.selectFile sampleFile2) = true ∧
    stepUi submittingState (UiEvent.selectFile sampleFile2) =
      handleFileSelect submittingState sampleFile2 ∧
    (stepUi submittingState (UiEvent.selectFile sampleFile2)).selectedFile ≠
      submittingState.selectedFile := by
  refine ⟨reachable_submittingState, rfl, rfl, rfl, ?_⟩
  decide

/-- C1 (amended): in every reachable Submitting state no second submission
can be started — the Analyze button is disabled and no retry affordance is
rendered — but the file-selection gestures remain live. -/
theorem c1_submit_inert_selection_live (s : AppState) (f : JsFile)
    (h : Reachable s) (hl : s.isLoading = true) :
    enabledIn s UiEvent.clickAnalyze = false ∧
    enabledIn s UiEvent.clickRetry = false ∧
    enabledIn s (UiEvent.selectFile f) = true := by
  have hi := controllerInv_of_reachable h
  simp [controllerInv, hl] at hi
  refine ⟨by simp [enabledIn, hl], ?_, rfl⟩
  simp [enabledIn, hi.1]

theorem c1_submit_inert_selection_live_witness :
    enabledIn submittingState UiEvent.clickAnalyze = false ∧
    enabledIn submittingState UiEvent.clickRetry = false ∧
    enabledIn submittingState (UiEvent.selectFile sampleFile2) = true :=
  c1_submit_inert_selection_live submittingState sampleFile2
    reachable_submittingState rfl

/-- C2 (counterexample): `renderCostSavings` is not total on partially
populated entries — a cost-savings entry missing its `savings_tips` and
`discount_programs` arrays makes the accessor throw. -/
theorem c2_cost_savings_accessor_throws :
    renderCostSavings malformedData = Except.error () := by rfl

/-- C2 (amended): every section accessor tolerates a missing `care_plan`,
a missing `agent_results` and a missing nested `resource.result`
(rendering nothing), and the cost-savings accessor is total provided each
cost-savings entry carries its savings-tips and discount-programs
arrays. -/
theorem c2_accessors_total_on_wellformed (d : CarePlanData)
    (h : costEntriesWellFormed d) :
    (renderCostSavings d).isOk = true ∧
    (d.care_plan = none →
      renderMedications d = none ∧ renderActionItems d = none ∧
      renderSimplifiedTerms d = none ∧ renderLifestyleTips d = none ∧
      renderFollowUp d = none ∧ renderEmergencyContacts d = none) ∧
    (d.agent_results = none →
      renderCostSavings d = Except.ok none ∧
      renderSupportResources d = none) := by
  obtain ⟨o, ho, -⟩ := renderCostSavings_ok_of_wf h
  refine ⟨by rw [ho]; rfl, ?_, ?_⟩
  · intro hc
    simp [renderMedications, renderActionItems, renderSimplifiedTerms,
      renderLifestyleTips, renderFollowUp, renderEmergencyContacts, hc, nonEmpty]
  · intro ha
    simp [renderCostSavings, renderSupportResources, resourceResult, ha, nonEmpty]

theorem c2_accessors_total_on_wellformed_witness :
    renderCostSavings emptyData = Except.ok none ∧
    renderSupportResources emptyData = none :=
  (c2_accessors_total_on_wellformed emptyData
    (by simp [costEntriesWellFormed, resourceResult, emptyData])).2.2 rfl

/-- C3 (code bug, evaluated at the failing input): on a submission with a
selected file whose request fails, the run enters Failed with the
connectivity message, yet the progress ticker started for the submission
is never cleared — `clearInterval` lives only on the success path.  The
success outcome, by contrast, does clear it. -/
theorem c3_ticker_leak_on_failure :
    (handleSubmitRun selectedState (RequestOutcome.failure netFailure)).tickerStarted
        = true ∧
    (handleSubmitRun selectedState (RequestOutcome.failure netFailure)).tickerCleared
        = false ∧
    (handleSubmitRun selectedState (RequestOutcome.failure netFailure)).final.error
        = some connectionFailedMessage ∧
    (handleSubmitRun selectedState (RequestOutcome.success emptyData)).tickerCleared
        = true :=
  ⟨rfl, rfl, rfl, rfl⟩

/-- C4 (counterexample): a rejection whose response body carries neither a
message nor a detail field is classified as the generic fallback, not —
as the ordered classification in the claim demands via its third rule —
as the failure's own message. -/
theorem c4_response_without_fields_uses_generic :
    classifyError statusOnlyError = genericErrorMessage ∧
    claimedClassify statusOnlyError = "Request failed with status code 500" ∧
    classifyError statusOnlyError ≠ claimedClassify statusOnlyError := by
  refine ⟨rfl, rfl, ?_⟩
  decide

/-- C4 (amended): the classification is ordered and first-match-wins with
the third rule restricted — (1) a responded body's non-empty message, then
its non-empty detail, is used verbatim; with a response but no usable
field the generic fallback is used; (2) request sent with no response →
the connectivity message; (3) no request sent → the failure's own message
when non-empty, else the generic fallback. -/
theorem c4_classification_amended (e : RequestError) :
    classifyError e = amendedClassify e := by
  obtain ⟨resp, req, msg⟩ := e
  cases resp <;> rfl

theorem c4_classification_amended_witness :
    classifyError fileTooLargeError = amendedClassify fileTooLargeError :=
  c4_classification_amended fileTooLargeError

/-- C5: submitting with no document selected sets the error to exactly
"Please select a file first.", issues no request, and leaves every other
state cell unchanged. -/
theorem c5_submit_without_file (s : AppState) (h : s.selectedFile = none) :
    (handleSubmitSync s).2 = false ∧
    (handleSubmitSync s).1.error = some selectFileFirstMessage ∧
    (handleSubmitSync s).1.selectedFile = s.selectedFile ∧
    (handleSubmitSync s).1.isLoading = s.isLoading ∧
    (handleSubmitSync s).1.result = s.result ∧
    (handleSubmitSync s).1.uploadProgress = s.uploadProgress := by
  simp [handleSubmitSync, h]

theorem c5_submit_without_file_witness :
    (handleSubmitSync initialState).2 = false ∧
    (handleSubmitSync initialState).1.error = some selectFileFirstMessage :=
  ⟨(c5_submit_without_file initialState rfl).1,
    (c5_submit_without_file initialState rfl).2.1⟩

/-- C6 (counterexample): on a payload whose cost-savings entry lacks its
nested arrays, the Resources tab renders an error rather than the declared
composition filtered to non-empty backing data. -/
theorem c6_resources_tab_throws :
    renderTab Tab.resources malformedData = Except.error () ∧
    (declaredSections Tab.resources).filter
      (fun sec => sectionPresent malformedData sec) = [PlanSection.costSavings] ∧
    renderTab Tab.resources malformedData ≠ Except.ok
      ((declaredSections Tab.resources).filter
        (fun sec => sectionPresent malformedData sec)) := by
  have h1 : renderTab Tab.resources malformedData = Except.error () := rfl
  refine ⟨h1, rfl, ?_⟩
  rw [h1]
  intro hcontra
  exact Except.noConfusion hcontra

/-- C6 (amended): provided every cost-savings entry carries its nested
arrays, each tab renders exactly the declared composition of §4.4, in
order, filtered to the sections whose backing collection is present and
non-empty. -/
theorem renderTab_resources_eq (d : CarePlanData) {o : Option CostSavingsSection}
    (ho : renderCostSavings d = Except.ok o) :
    renderTab Tab.resources d = Except.ok
      (secOf PlanSection.costSavings o ++
        secOf PlanSection.supportResources (renderSupportResources d)) := by
  simp only [renderTab, ho]
  cases o <;> rfl

theorem c6_tab_composition_amended (t : Tab) (d : CarePlanData)
    (h : costEntriesWellFormed d) :
    renderTab t d = Except.ok
      ((declaredSections t).filter (fun sec => sectionPresent d sec)) := by
  obtain ⟨o, ho, hs⟩ := renderCostSavings_ok_of_wf h
  cases t with
  | overview =>
      rcases Bool.eq_false_or_eq_true (sectionPresent d PlanSection.medications)
        with h1 | h1 <;>
      rcases Bool.eq_false_or_eq_true (sectionPresent d PlanSection.actionItems)
        with h2 | h2 <;>
      rcases Bool.eq_false_or_eq_true (sectionPresent d PlanSection.lifestyleTips)
        with h3 | h3 <;>
      simp [renderTab, declaredSections, secOf_eq, renderMedications_isSome,
        renderActionItems_isSome, renderLifestyleTips_isSome,
        List.filter, h1, h2, h3]
  | medications =>
      rcases Bool.eq_false_or_eq_true (sectionPresent d PlanSection.medications)
        with h1 | h1 <;>
      simp [renderTab, declaredSections, secOf_eq, renderMedications_isSome,
        List.filter, h1]
  | actions =>
      rcases Bool.eq_false_or_eq_true (sectionPresent d PlanSection.actionItems)
        with h1 | h1 <;>
      rcases Bool.eq_false_or_eq_true (sectionPresent d PlanSection.followUp)
        with h2 | h2 <;>
      rcases Bool.eq_false_or_eq_true
        (sectionPresent d PlanSection.emergencyContacts) with h3 | h3 <;>
      simp [renderTab, declaredSections, secOf_eq, renderActionItems_isSome,
        renderFollowUp_isSome, renderEmergencyContacts_isSome,
        List.filter, h1, h2, h3]
  | education =>
      rcases Bool.eq_false_or_eq_true
        (sectionPresent d PlanSection.simplifiedTerms) with h1 | h1 <;>
      rcases Bool.eq_false_or_eq_true (sectionPresent d PlanSection.lifestyleTips)
        with h2 | h2 <;>
      simp [renderTab, declaredSections, secOf_eq, renderSimplifiedTerms_isSome,
        renderLifestyleTips_isSome, List.filter, h1, h2]
  | resources =>
      rw [renderTab_resources_eq d ho]
      rcases Bool.eq_false_or_eq_true
        (sectionPresent d PlanSection.supportResources) with h2 | h2 <;>
      cases o <;>
      simp [declaredSections, secOf_eq, renderSupportResources_isSome,
        List.filter, ← hs, h2]

theorem c6_tab_composition_amended_witness :
    renderTab Tab.resources formatSampleData = Except.ok
      ((declaredSections Tab.resources).filter
        (fun sec => sectionPresent formatSampleData sec)) :=
  c6_tab_composition_amended Tab.resources formatSampleData
    (by simp [costEntriesWellFormed, resourceResult, formatSampleData,
      wellFormedSaving])

/-- C7 (counterexample): with the generic-availability flag set and the
generic name absent, the generic line is still rendered (reading
"Generic Available: Yes - " with the name interpolating as nothing),
whereas the claim demands no generic line in that case. -/
theorem c7_generic_line_without_name :
    flagOnlySaving.generic_available = true ∧
    flagOnlySaving.generic_name = none ∧
    renderSavingCard flagOnlySaving = Except.ok
      { medication := some "Eliquis"
        monthly_savings := none
        genericLine := some "Generic Available: Yes - "
        tips := []
        programs := [] } :=
  ⟨rfl, rfl, rfl⟩

/-- C7 (amended): in every rendered cost-savings card the generic line
appears exactly when the entry's generic-availability flag is true; when
the flag is true the line carries the generic's name if present and ends
with no name text otherwise. -/
theorem c7_generic_line_amended (s : CostSaving) (c : CostSavingCard)
    (h : renderSavingCard s = Except.ok c) :
    c.genericLine.isSome = s.generic_available ∧
    (∀ n, s.generic_name = some n →
      c.genericLine = if s.generic_available = true
        then some ("Generic Available: Yes - " ++ n) else none) ∧
    (s.generic_name = none →
      c.genericLine = if s.generic_available = true
        then some "Generic Available: Yes - " else none) := by
  cases ht : s.savings_tips with
  | none =>
      rw [renderSavingCard_err_tips ht] at h
      exact Except.noConfusion h
  | some tips =>
      cases hp : s.discount_programs with
      | none =>
          rw [renderSavingCard_err_programs ht hp] at h
          exact Except.noConfusion h
      | some programs =>
          rw [renderSavingCard_ok ht hp] at h
          injection h with h
          subst h
          cases hg : s.generic_available <;>
            cases hn : s.generic_name <;>
            simp [genericLineText, jsText, hn, hg]

theorem c7_generic_line_amended_witness :
    ({ medication := some "Lipitor"
       monthly_savings := some (mkRat 45 1)
       genericLine := some "Generic Available: Yes - Atorvastatin"
       tips := ["Use a pharmacy discount card"]
       programs := ["GoodRx"] } : CostSavingCard).genericLine =
      if wellFormedSaving.generic_available = true
      then some ("Generic Available: Yes - " ++ "Atorvastatin") else none :=
  (c7_generic_line_amended wellFormedSaving _ (by rfl)).2.1 "Atorvastatin" rfl

/-- C8: a drag-and-drop gesture selects the dropped file (replacing the
document and firing the selection-changed transition) exactly when a file
reference is present and its media type begins with "image/"; otherwise
it is silently ignored with no state change.  Click-to-browse accepts any
present file with no media-type filter. -/
theorem c8_selection_gestures (s : AppState) (files : List JsFile) :
    (∀ f, files.head? = some f →
      (jsStartsWith f.type "image/" = true →
        handleDrop files = some f ∧
        dropGesture s files = handleFileSelect s f) ∧
      (jsStartsWith f.type "image/" = false →
        handleDrop files = none ∧ dropGesture s files = s) ∧
      (handleFileChange files = some f ∧
        browseGesture s files = handleFileSelect s f)) ∧
    (files.head? = none →
      handleDrop files = none ∧ dropGesture s files = s ∧
      handleFileChange files = none ∧ browseGesture s files = s) := by
  cases files with
  | nil => simp [handleDrop, handleFileChange, dropGesture, browseGesture]
  | cons a t =>
      refine ⟨?_, by intro h; simp at h⟩
      intro f hf
      simp only [List.head?] at hf
      injection hf with hf
      subst hf
      refine ⟨?_, ?_, ?_⟩
      · intro himg
        constructor
        · simp [handleDrop, himg]
        · simp [dropGesture, handleDrop, himg]
      · intro himg
        constructor
        · simp [handleDrop, himg]
        · simp [dropGesture, handleDrop, himg]
      · exact ⟨rfl, rfl⟩

theorem c8_selection_gestures_witness :
    (handleDrop [sampleFile] = some sampleFile ∧
      dropGesture initialState [sampleFile] =
        handleFileSelect initialState sampleFile) ∧
    (handleDrop [textFile] = none ∧
      dropGesture initialState [textFile] = initialState) :=
  ⟨((c8_selection_gestures initialState [sampleFile]).1 sampleFile rfl).1
      (by decide),
    (((c8_selection_gestures initialState [textFile]).1 textFile rfl).2.1
      (by decide))⟩

/-- C9: the display formatters — a confidence score of 0.947 shows as
"95%", a processing time of 3.2 as "3.2s", and a total potential savings
of 123.4 as "$123.40" in the cost-savings summary line. -/
theorem c9_display_formatting :
    confidenceDisplay formatSampleData = "95%" ∧
    processingTimeDisplay formatSampleData = "3.2s" ∧
    (renderCostSavings formatSampleData).map
      (fun o => o.map (fun sec => sec.totalLine)) = Except.ok (some "$123.40") :=
  ⟨rfl, rfl, rfl⟩

/-- C10: in every reachable state a care-plan result and a failure message
are never displayed together. -/
theorem c10_result_error_exclusive (s : AppState) (h : Reachable s) :
    s.result = none ∨ s.error = none := by
  have hi := controllerInv_of_reachable h
  simp [controllerInv] at hi
  exact hi.1.1

theorem c10_result_error_exclusive_witness :
    initialState.result = none ∨ initialState.error = none :=
  c10_result_error_exclusive initialState Reachable.init

end CareCompanion
